import Mathlib

/-!
Verification of the classification-and-validation decision engine of the
uptrends-to-synthetics migration tool.  The Python sources
(`ai_monitor_classifier.py`, `monitor_validator.py`, `migration_script.py`,
`uptrends_client.py`) are shallowly embedded below: dictionaries become
association lists over a `Value` type, Python floats become rationals, and
fallible operations return `Except PyExn`.
-/

namespace Migration

/-- A Python value as it appears in the monitor/config dictionaries:
strings, ints, floats (as rationals), booleans, `None`, lists and dicts. -/
inductive Value where
  | str (s : String)
  | int (n : Int)
  | num (q : ℚ)
  | bool (b : Bool)
  | null
  | list (l : List Value)
  | dict (d : List (String × Value))

/-- Python `str.lower()` on the ASCII strings handled here, implemented by
structural recursion over the character list so that proofs can evaluate it. -/
def pyLower (s : String) : String :=
  String.mk (s.data.map Char.toLower)

/-- Python `str.upper()` on the ASCII strings handled here. -/
def pyUpper (s : String) : String :=
  String.mk (s.data.map Char.toUpper)

/-- A Python dict with string keys, as an insertion-ordered association list. -/
abbrev Config := List (String × Value)

/-- First value bound to key `k` (Python `d[k]` / `d.get(k)`). -/
def lookupV (c : Config) (k : String) : Option Value :=
  (c.find? (fun p => p.1 = k)).map (fun p => p.2)

/-- Python `k in d` for a dict. -/
def hasKey (c : Config) (k : String) : Bool :=
  (lookupV c k).isSome

/-- Python `d.get(k, default)`. -/
def getD (c : Config) (k : String) (default : Value) : Value :=
  (lookupV c k).getD default

/-- Python truthiness of a value: empty strings, zero, `False`, `None`,
empty lists and empty dicts are falsy. -/
def valueTruthy : Value → Bool
  | .str s => !s.data.isEmpty
  | .int n => n ≠ 0
  | .num q => q ≠ 0
  | .bool b => b
  | .null => false
  | .list l => !l.isEmpty
  | .dict d => !d.isEmpty

/-- Truthiness of `monitor_data.get(field)` for an optional string field. -/
def strTruthy : Option String → Bool
  | none => false
  | some s => !s.data.isEmpty

/-- Truthiness of an optional list-valued field. -/
def listTruthy : Option (List Value) → Bool
  | none => false
  | some l => !l.isEmpty

/-- Truthiness of an optional dict-valued field. -/
def dictTruthy : Option Config → Bool
  | none => false
  | some d => !d.isEmpty

/-- `ElasticMonitorType` from `ai_monitor_classifier.py`: the four target
archetypes. -/
inductive ElasticMonitorType where
  | http
  | tcp
  | icmp
  | browser
deriving DecidableEq

/-- The `.value` string of each enum member. -/
def ElasticMonitorType.value : ElasticMonitorType → String
  | .http => "http"
  | .tcp => "tcp"
  | .icmp => "icmp"
  | .browser => "browser"

/-- `ElasticMonitorType(v)`: Python enum lookup by value; `ValueError`
(modelled as `none`) when `v` is not one of the four member strings. -/
def elasticOfValue : Value → Option ElasticMonitorType
  | .str "http" => some .http
  | .str "tcp" => some .tcp
  | .str "icmp" => some .icmp
  | .str "browser" => some .browser
  | _ => none

/-- The `MonitorClassification` dataclass. -/
structure MonitorClassification where
  elastic_type : ElasticMonitorType
  confidence : ℚ
  reasoning : String
  recommended_config : Config

/-- The `monitor_data` dictionary handed to `classify_monitor` by
`_process_monitor` (only the fields the classifier reads).  An absent
`monitor_type` key reads as `""` via `.get('monitor_type', '')`. -/
structure MonitorData where
  monitor_type : String := ""
  self_service_transaction_script : Option String := none
  multi_step_api_transaction_script : Option String := none
  msa_steps : Option (List Value) := none
  transaction_step_definition : Option Config := none
  browser_type : Option String := none
  check_interval : Option Int := none

/-- `_get_schedule_from_interval`: maps a check interval in seconds to an
Elastic schedule string, with `"@every 5m"` as the fallback for intervals
above 3600. -/
def _get_schedule_from_interval (interval_seconds : Int) : String :=
  if interval_seconds ≤ 60 then "@every 1m"
  else if interval_seconds ≤ 180 then "@every 3m"
  else if interval_seconds ≤ 300 then "@every 5m"
  else if interval_seconds ≤ 600 then "@every 10m"
  else if interval_seconds ≤ 900 then "@every 15m"
  else if interval_seconds ≤ 1800 then "@every 30m"
  else if interval_seconds ≤ 3600 then "@every 1h"
  else "@every 5m"

/-- `_get_http_config`: recommended config for lightweight HTTP monitors. -/
def _get_http_config (md : MonitorData) : Config :=
  [("schedule", .str (_get_schedule_from_interval (md.check_interval.getD 300))),
   ("timeout", .str "30s"),
   ("locations", .list [.str "us_central"]),
   ("max_redirects", .int 3),
   ("mode", .str "any")]

/-- `_get_icmp_config`: recommended config for ICMP monitors. -/
def _get_icmp_config (md : MonitorData) : Config :=
  [("schedule", .str (_get_schedule_from_interval (md.check_interval.getD 300))),
   ("timeout", .str "10s"),
   ("locations", .list [.str "us_central"]),
   ("wait", .str "1s")]

/-- `_get_tcp_config`: recommended config for TCP monitors. -/
def _get_tcp_config (md : MonitorData) : Config :=
  [("schedule", .str (_get_schedule_from_interval (md.check_interval.getD 300))),
   ("timeout", .str "30s"),
   ("locations", .list [.str "us_central"])]

/-- The `has_complex_features = any([...])` test of `_classify_with_rules`:
any scripted-transaction body, multi-step API script, multi-step definitions,
step-definition object, browser engine, or a Transaction/MultiStepApi source
type. -/
def has_complex_features (md : MonitorData) : Bool :=
  strTruthy md.self_service_transaction_script ||
  strTruthy md.multi_step_api_transaction_script ||
  listTruthy md.msa_steps ||
  dictTruthy md.transaction_step_definition ||
  strTruthy md.browser_type ||
  decide (pyLower md.monitor_type ∈ ["transaction", "multistepapi"])

/-- `_classify_with_rules`: deterministic classification for simple cases;
`none` defers to the AI classifier. -/
def _classify_with_rules (md : MonitorData) : Option MonitorClassification :=
  let monitor_type := pyLower md.monitor_type
  if has_complex_features md then
    none
  else if monitor_type ∈ ["http", "https"] then
    some { elastic_type := .http
           confidence := 0.95
           reasoning := "RULE: Simple " ++ pyUpper monitor_type ++
             " monitor without complex features"
           recommended_config := _get_http_config md }
  else if monitor_type = "ping" then
    some { elastic_type := .icmp
           confidence := 0.98
           reasoning := "RULE: Ping monitor maps directly to ICMP"
           recommended_config := _get_icmp_config md }
  else if monitor_type = "tcp" then
    some { elastic_type := .tcp
           confidence := 0.95
           reasoning := "RULE: TCP monitor maps directly"
           recommended_config := _get_tcp_config md }
  else if monitor_type = "dns" then
    some { elastic_type := .icmp
           confidence := 0.85
           reasoning := "RULE: DNS monitor can be verified with ICMP"
           recommended_config := _get_icmp_config md }
  else if monitor_type ∈ ["smtp", "pop3", "imap", "sftp"] then
    some { elastic_type := .tcp
           confidence := 0.90
           reasoning := "RULE: " ++ pyUpper monitor_type ++
             " monitor is verified with TCP"
           recommended_config := _get_tcp_config md }
  else
    none

/-- `_rule_based_classification`: the network-free fallback classifier used
when the inference backend fails. -/
def _rule_based_classification (md : MonitorData) : MonitorClassification :=
  let monitor_type := pyLower md.monitor_type
  if monitor_type ∈ ["transaction", "multistepapi"] then
    { elastic_type := .browser
      confidence := 0.9
      reasoning := "Transaction monitor requires browser"
      recommended_config :=
        [("schedule", .str "@every 5m"), ("timeout", .str "60s"),
         ("locations", .list [.str "us_central"])] }
  else if monitor_type = "ping" then
    { elastic_type := .icmp
      confidence := 0.95
      reasoning := "Ping monitor uses ICMP"
      recommended_config :=
        [("schedule", .str "@every 1m"), ("timeout", .str "10s"),
         ("locations", .list [.str "us_central"])] }
  else if monitor_type ∈ ["http", "https"] then
    { elastic_type := .http
      confidence := 0.8
      reasoning := "Simple HTTP monitor"
      recommended_config :=
        [("schedule", .str "@every 3m"), ("timeout", .str "30s"),
         ("max_redirects", .int 3), ("locations", .list [.str "us_central"])] }
  else
    { elastic_type := .http
      confidence := 0.5
      reasoning := "Unknown type, using HTTP as default"
      recommended_config :=
        [("schedule", .str "@every 5m"), ("timeout", .str "30s"),
         ("locations", .list [.str "us_central"])] }

/-- The seven schedule strings produced by the bucket thresholds. -/
def scheduleStrings : List String :=
  ["@every 1m", "@every 3m", "@every 5m", "@every 10m", "@every 15m",
   "@every 30m", "@every 1h"]

/-- Duration in seconds denoted by each schedule string (for comparing
schedule lengths). -/
def scheduleSeconds : String → ℕ
  | "@every 1m" => 60
  | "@every 3m" => 180
  | "@every 5m" => 300
  | "@every 10m" => 600
  | "@every 15m" => 900
  | "@every 30m" => 1800
  | "@every 1h" => 3600
  | _ => 0

/-- Join strings with `", "` (Python container rendering). -/
def joinComma (l : List String) : String :=
  String.intercalate ", " l

/-- Rational rendering used for Python floats inside f-strings.  The source
renders IEEE floats; the exact digits are immaterial to every property proved
here, so a plain numerator/denominator form is used. -/
def ratRender (q : ℚ) : String :=
  if q.den = 1 then toString q.num else toString q.num ++ "/" ++ toString q.den

/-- Python `str()` / `repr()` rendering of a value inside an f-string, with
explicit recursion depth so the function evaluates by kernel reduction.  The
flag selects `repr` (used for elements of containers, quoting strings). -/
def pyStrAux : Nat → Bool → Value → String
  | _, asRepr, .str s => if asRepr then "\x27" ++ s ++ "\x27" else s
  | _, _, .int n => toString n
  | _, _, .num q => ratRender q
  | _, _, .bool b => if b then "True" else "False"
  | _, _, .null => "None"
  | 0, _, .list _ => ""
  | 0, _, .dict _ => ""
  | n + 1, _, .list l => "[" ++ joinComma (l.map (pyStrAux n true)) ++ "]"
  | n + 1, _, .dict d =>
      "\x7b" ++
        joinComma (d.map (fun p =>
          "\x27" ++ p.1 ++ "\x27: " ++ pyStrAux n true p.2)) ++
      "\x7d"

/-- Python `str(v)` as interpolated by an f-string. -/
def pyStr (v : Value) : String :=
  pyStrAux 1000 false v

/-- Python `pat in s` (substring containment). -/
def strContainsStr (s pat : String) : Bool :=
  s.data.tails.any (fun t => pat.data.isPrefixOf t)

/-- One character of the regex class `[a-zA-Z0-9_-]`. -/
def isIdChar (c : Char) : Bool :=
  c.isAlphanum || c = '_' || c = '-'

/-- One character of the regex class `[a-zA-Z0-9.-]`. -/
def isHostChar (c : Char) : Bool :=
  c.isAlphanum || c = '.' || c = '-'

/-- ASCII whitespace matched by the regex class `\s`. -/
def isPySpace (c : Char) : Bool :=
  c = ' ' || c = '\t' || c = '\n' || c = '\r' || c = '\x0b' || c = '\x0c'

/-- Python `re` `$` semantics: a full match may leave one final newline
unconsumed, so strip a single trailing newline before exact matching. -/
def dollarStrip (l : List Char) : List Char :=
  match l.getLast? with
  | some c => if c = '\n' then l.dropLast else l
  | none => l

/-- `re.match(r'^[a-zA-Z0-9_-]+$', s)` as a Bool. -/
def idRegexMatch (s : String) : Bool :=
  let core := dollarStrip s.data
  !core.isEmpty && core.all isIdChar

/-- The duration units accepted by the `[smh]` classes. -/
def durUnits : List Char := ['s', 'm', 'h']

/-- `re.match(r'^\d+[smh]$', ·)` as a Bool over a character list. -/
def durFormatMatch (l : List Char) : Bool :=
  let core := dollarStrip l
  let ds := core.takeWhile Char.isDigit
  let rest := core.dropWhile Char.isDigit
  !ds.isEmpty &&
    (match rest with
     | [u] => decide (u ∈ durUnits)
     | _ => false)

/-- `re.match(r'^@every\s+\d+[smh]$', ·)` as a Bool. -/
def schedFormatMatch (l : List Char) : Bool :=
  match dollarStrip l with
  | '@' :: 'e' :: 'v' :: 'e' :: 'r' :: 'y' :: rest =>
    let ws := rest.takeWhile isPySpace
    let rest2 := rest.dropWhile isPySpace
    let ds := rest2.takeWhile Char.isDigit
    let rest3 := rest2.dropWhile Char.isDigit
    !ws.isEmpty && !ds.isEmpty &&
      (match rest3 with
       | [u] => decide (u ∈ durUnits)
       | _ => false)
  | _ => false

/-- `re.match(r'^[a-zA-Z0-9.-]+:\d+$', ·)` as a Bool (the class excludes
`:`, so the pattern splits at the first colon). -/
def hostPortMatch (l : List Char) : Bool :=
  let core := dollarStrip l
  let pre := core.takeWhile isHostChar
  match core.drop pre.length with
  | ':' :: rest => !pre.isEmpty && !rest.isEmpty && rest.all Char.isDigit
  | _ => false

/-- `re.match(r'^[a-zA-Z0-9.-]+$', ·)` as a Bool. -/
def hostnameRegexMatch (l : List Char) : Bool :=
  let core := dollarStrip l
  !core.isEmpty && core.all isHostChar

/-- `re.match(r'^(\d{1,3}\.){3}\d{1,3}$', s)` as a Bool: four dot-separated
groups of one to three digits. -/
def ipRegexMatch (s : String) : Bool :=
  let parts := (String.mk (dollarStrip s.data)).splitOn "."
  parts.length = 4 &&
    parts.all (fun p => !p.data.isEmpty && p.data.length ≤ 3 && p.data.all Char.isDigit)

/-- Digit run to a natural number. -/
def digitsToNat (l : List Char) : Nat :=
  l.foldl (fun acc c => acc * 10 + (c.toNat - Char.toNat '0')) 0

/-- `re.search(r'(\d+)u', ·)`: the first maximal digit run immediately
followed by the unit character, as a number. -/
def searchIntUnit (u : Char) : List Char → Option Nat
  | [] => none
  | c :: rest =>
    if c.isDigit && (match (c :: rest).dropWhile Char.isDigit with
                     | u' :: _ => u' == u
                     | [] => false) then
      some (digitsToNat ((c :: rest).takeWhile Char.isDigit))
    else
      searchIntUnit u rest

/-- Scheme characters accepted by `urlparse` after the leading letter. -/
def isSchemeChar (c : Char) : Bool :=
  c.isAlphanum || c = '+' || c = '-' || c = '.'

/-- `urlparse` scheme splitting: the text before the first `:` is a scheme
when it is nonempty, starts with a letter and consists of scheme characters;
the scheme is lower-cased.  Returns the scheme (if any) and the remainder. -/
def splitScheme (l : List Char) : Option (List Char) × List Char :=
  let pre := l.takeWhile (fun c => c ≠ ':')
  if pre.length = l.length then (none, l)
  else
    match pre with
    | [] => (none, l)
    | c :: _ =>
      if c.isAlpha ∧ pre.all isSchemeChar then
        (some (pre.map Char.toLower), l.drop (pre.length + 1))
      else
        (none, l)

/-- `urlparse` netloc: present only after a leading `//`, up to the first of
`/`, `?` or `#`. -/
def netlocOf (rest : List Char) : List Char :=
  match rest with
  | '/' :: '/' :: r => r.takeWhile (fun c => c ≠ '/' ∧ c ≠ '?' ∧ c ≠ '#')
  | _ => []

/-- `_is_valid_url`: scheme and netloc both non-empty and scheme is http or
https (the source's bare `except` turns any parse error into `False`). -/
def _is_valid_url (url : String) : Bool :=
  let p := splitScheme url.data
  let netloc := netlocOf p.2
  match p.1 with
  | some sch => !netloc.isEmpty && decide (sch = "http".data ∨ sch = "https".data)
  | none => false

/-- `urlparse(url).hostname`: the netloc after the last `@`, up to the first
`:`, lower-cased; `None` when empty.  (IPv6 bracket syntax is not modelled;
no claim exercises it.) -/
def pyHostname (url : String) : Option String :=
  let p := splitScheme url.data
  let netloc := netlocOf p.2
  let hp := (netloc.reverse.takeWhile (fun c => c ≠ '@')).reverse
  let host := hp.takeWhile (fun c => c ≠ ':')
  if host.isEmpty then none else some (String.mk (host.map Char.toLower))

/-- `urlparse(url).port`: the digits after the first `:` of the host part;
`None` when absent.  (A malformed port raises in CPython on access; the
generator branches that read it are not exercised by any claim.) -/
def pyPort (url : String) : Option Int :=
  let p := splitScheme url.data
  let netloc := netlocOf p.2
  let hp := (netloc.reverse.takeWhile (fun c => c ≠ '@')).reverse
  let portPart := (hp.dropWhile (fun c => c ≠ ':')).drop 1
  if !portPart.isEmpty && portPart.all Char.isDigit then
    some (digitsToNat portPart)
  else
    none

/-- The Python exception classes relevant to the embedded code. -/
inductive PyExn where
  | jsonDecodeError
  | keyError
  | valueError
  | requestException
  | attributeError
  | typeError
deriving DecidableEq

/-- `self.valid_types` of `MonitorValidator`. -/
def valid_types : List String := ["http", "tcp", "icmp", "browser"]

/-- `self.valid_methods` of `MonitorValidator`. -/
def valid_methods : List String :=
  ["GET", "POST", "PUT", "DELETE", "HEAD", "OPTIONS", "PATCH"]

/-- `self.valid_locations` of `MonitorValidator`. -/
def valid_locations : List String :=
  ["us_central", "us_east", "us_west", "europe_west", "asia_pacific",
   "south_america", "africa", "australia_southeast"]

/-- The required fields of `_validate_basic_fields`. -/
def requiredFields : List String :=
  ["name", "id", "type", "enabled", "schedule", "timeout", "locations"]

/-- Python `x == s` for a string `s`: true only for an equal string value
(used by `in` on lists, which compares elements by `==`). -/
def valueEqStr (v : Value) (s : String) : Bool :=
  match v with
  | .str t => t = s
  | _ => false

/-- True when every element of the list is a string. -/
def allStr (l : List Value) : Bool :=
  l.all (fun v => match v with | .str _ => true | _ => false)

/-- Python `needle in container`: substring test on a string, `==`-membership
on a list, key membership on a dict; any other right operand raises
`TypeError`. -/
def strInValue (needle : String) : Value → Except PyExn Bool
  | .str s => .ok (strContainsStr s needle)
  | .list l => .ok (l.any (fun v => valueEqStr v needle))
  | .dict d => .ok (d.any (fun p => p.1 = needle))
  | _ => .error .typeError

/-- The name check of `_validate_basic_fields`:
`if config.get('name') and len(config['name']) < 3`.  Truthiness is tested
first; `len` works on strings, lists and dicts, and raises `TypeError` on a
truthy number or boolean. -/
def nameCheck : Option Value → Except PyExn (List String)
  | some (.str s) =>
      .ok (if !s.data.isEmpty && s.length < 3 then
        ["El nombre debe tener al menos 3 caracteres"] else [])
  | some (.list l) =>
      .ok (if !l.isEmpty && l.length < 3 then
        ["El nombre debe tener al menos 3 caracteres"] else [])
  | some (.dict d) =>
      .ok (if !d.isEmpty && d.length < 3 then
        ["El nombre debe tener al menos 3 caracteres"] else [])
  | some (.int n) => if n ≠ 0 then .error .typeError else .ok []
  | some (.num q) => if q ≠ 0 then .error .typeError else .ok []
  | some (.bool b) => if b then .error .typeError else .ok []
  | some .null => .ok []
  | none => .ok []

/-- The id check of `_validate_basic_fields`:
`if config.get('id') and not re.match(...)`.  A truthy non-string id raises
`TypeError` at `re.match`. -/
def idCheck : Option Value → Except PyExn (List String)
  | some (.str s) =>
      .ok (if !s.data.isEmpty && !idRegexMatch s then
        ["El ID solo puede contener letras, números, guiones y guiones bajos"]
      else [])
  | some v => if valueTruthy v then .error .typeError else .ok []
  | none => .ok []

/-- `_validate_basic_fields`: required fields, type, name, id and enabled
checks, in source order; the name and id checks can raise. -/
def _validate_basic_fields (config : Config) : Except PyExn (List String) :=
  match nameCheck (lookupV config "name") with
  | .error e => .error e
  | .ok nameErrs =>
    match idCheck (lookupV config "id") with
    | .error e => .error e
    | .ok idErrs =>
      .ok
        (((requiredFields.filter (fun f => !hasKey config f)).map
            (fun f => "Campo obligatorio faltante: " ++ f))
        ++ (if (match lookupV config "type" with
                | some (.str s) => decide (s ∈ valid_types)
                | _ => false) then []
            else
              ["Tipo de monitor inválido: " ++ pyStr (getD config "type" .null) ++
               ". Tipos válidos: [\x27http\x27, \x27tcp\x27, \x27icmp\x27, \x27browser\x27]"])
        ++ nameErrs
        ++ idErrs
        ++ (match lookupV config "enabled" with
            | some (.bool _) => []
            | some _ => ["El campo \x27enabled\x27 debe ser booleano"]
            | none => []))

/-- `_validate_schedule` over the raw value of the `schedule` key (the source
receives `config.get('schedule')`, so an absent key arrives as `None`).
A truthy non-string schedule raises `TypeError` at `re.match`; a string that
contains an `s` with no digit run immediately before an `s` makes
`re.search(r'(\d+)s', ...)` return `None`, so `.group(1)` raises
`AttributeError`. -/
def _validate_schedule (schedule : Option Value) : Except PyExn (List String) :=
  match schedule with
  | some (.str s) =>
    if s.data.isEmpty then .ok ["Schedule es obligatorio"]
    else
      if s.data.contains 's' then
        match searchIntUnit 's' s.data with
        | some n =>
            .ok ((if schedFormatMatch s.data then []
                  else ["Formato de schedule inválido: " ++ s ++
                        ". Formato correcto: @every 5m"]) ++
              (if n < 10 then ["El intervalo mínimo es 10 segundos"] else []))
        | none => .error .attributeError
      else
        .ok (if schedFormatMatch s.data then []
             else ["Formato de schedule inválido: " ++ s ++
                   ". Formato correcto: @every 5m"])
  | some v =>
      if valueTruthy v then .error .typeError else .ok ["Schedule es obligatorio"]
  | none => .ok ["Schedule es obligatorio"]

/-- `_validate_timeout`, with the same raising behaviour as
`_validate_schedule` for truthy non-strings and for unit letters without a
preceding digit run (for both the `s` and the `m` searches). -/
def _validate_timeout (timeout : Option Value) : Except PyExn (List String) :=
  match timeout with
  | some (.str s) =>
    if s.data.isEmpty then .ok ["Timeout es obligatorio"]
    else
      if s.data.contains 's' then
        match searchIntUnit 's' s.data with
        | some n =>
            .ok ((if durFormatMatch s.data then []
                  else ["Formato de timeout inválido: " ++ s ++
                        ". Formato correcto: 30s"]) ++
              (if n < 1 ∨ n > 180 then ["Timeout debe estar entre 1s y 180s"] else []))
        | none => .error .attributeError
      else if s.data.contains 'm' then
        match searchIntUnit 'm' s.data with
        | some n =>
            .ok ((if durFormatMatch s.data then []
                  else ["Formato de timeout inválido: " ++ s ++
                        ". Formato correcto: 30s"]) ++
              (if n < 1 ∨ n > 3 then ["Timeout debe estar entre 1m y 3m"] else []))
        | none => .error .attributeError
      else
        .ok (if durFormatMatch s.data then []
             else ["Formato de timeout inválido: " ++ s ++
                   ". Formato correcto: 30s"])
  | some v =>
      if valueTruthy v then .error .typeError else .ok ["Timeout es obligatorio"]
  | none => .ok ["Timeout es obligatorio"]

/-- `_validate_locations` over `config.get('locations', [])`; this check
never raises (the non-list case returns before the loop). -/
def _validate_locations (locations : Value) : List String :=
  if !valueTruthy locations then ["Se requiere al menos una ubicación"]
  else
    match locations with
    | .list l =>
        l.filterMap (fun v =>
          match v with
          | .str s =>
              if decide (s ∈ valid_locations) then none
              else some ("Ubicación inválida: " ++ s)
          | v => some ("Ubicación inválida: " ++ pyStr v))
    | _ => ["Locations debe ser una lista"]

/-- The method check of `_validate_http_monitor`: `config['method'].upper()`
raises `AttributeError` on a non-string. -/
def methodCheck : Option Value → Except PyExn (List String)
  | some (.str m) =>
      .ok (if decide (pyUpper m ∈ valid_methods) then []
           else ["Método HTTP inválido: " ++ m])
  | some _ => .error .attributeError
  | none => .ok []

/-- `_validate_http_monitor`.  The urls loop cannot raise: `_is_valid_url`
wraps `urlparse` in a bare `except` that returns `False`, so non-string urls
are reported invalid.  The method check can raise. -/
def _validate_http_monitor (config : Config) : Except PyExn (List String) :=
  match methodCheck (lookupV config "method") with
  | .error e => .error e
  | .ok methodErrs =>
    .ok
      ((match lookupV config "urls" with
        | none => ["Monitor HTTP requiere campo \x27urls\x27"]
        | some (.list []) => ["Monitor HTTP requiere al menos una URL"]
        | some (.list l) =>
            l.filterMap (fun v =>
              match v with
              | .str u => if _is_valid_url u then none else some ("URL inválida: " ++ u)
              | v => some ("URL inválida: " ++ pyStr v))
        | some _ => ["Monitor HTTP requiere al menos una URL"])
      ++ methodErrs
      ++ (match lookupV config "max_redirects" with
          | some (.int n) =>
              if n < 0 then ["max_redirects debe ser un entero positivo"] else []
          | some (.bool _) => []
          | some _ => ["max_redirects debe ser un entero positivo"]
          | none => [])
      ++ (match lookupV config "headers" with
          | some (.dict _) => []
          | some _ => ["Headers debe ser un diccionario"]
          | none => [])
      ++ (match lookupV config "check.response.status" with
          | some (.list codes) =>
              codes.filterMap (fun v =>
                match v with
                | .int n =>
                    if n < 100 ∨ n > 599 then
                      some ("Código de estado inválido: " ++ pyStr v)
                    else none
                | v => some ("Código de estado inválido: " ++ pyStr v))
          | some _ => ["check.response.status debe ser una lista"]
          | none => []))

/-- `_validate_tcp_monitor`.  A non-string element of `hosts` raises
`TypeError` at `re.match`, so the per-element test runs only when every
element is a string. -/
def _validate_tcp_monitor (config : Config) : Except PyExn (List String) :=
  match lookupV config "hosts" with
  | none => .ok ["Monitor TCP requiere campo \x27hosts\x27"]
  | some (.list []) => .ok ["Monitor TCP requiere al menos un host"]
  | some (.list l) =>
      if allStr l then
        .ok (l.filterMap (fun v =>
          match v with
          | .str h =>
              if hostPortMatch h.data then none
              else some ("Host:puerto inválido: " ++ h)
          | v => some ("Host:puerto inválido: " ++ pyStr v)))
      else .error .typeError
  | some _ => .ok ["Monitor TCP requiere al menos un host"]

/-- The wait check of `_validate_icmp_monitor`: `re.match` raises
`TypeError` on any non-string value (there is no truthiness guard). -/
def waitCheck : Option Value → Except PyExn (List String)
  | some (.str w) =>
      .ok (if durFormatMatch w.data then [] else ["Formato de wait inválido: " ++ w])
  | some _ => .error .typeError
  | none => .ok []

/-- The hosts block of `_validate_icmp_monitor`, with the `TypeError` guard
for non-string hosts. -/
def icmpHostsCheck (config : Config) : Except PyExn (List String) :=
  match lookupV config "hosts" with
  | none => .ok ["Monitor ICMP requiere campo \x27hosts\x27"]
  | some (.list []) => .ok ["Monitor ICMP requiere al menos un host"]
  | some (.list l) =>
      if allStr l then
        .ok (l.filterMap (fun v =>
          match v with
          | .str h =>
              if hostnameRegexMatch h.data || ipRegexMatch h then none
              else some ("Host inválido: " ++ h)
          | v => some ("Host inválido: " ++ pyStr v)))
      else .error .typeError
  | some _ => .ok ["Monitor ICMP requiere al menos un host"]

/-- `_validate_icmp_monitor`: the hosts block followed by the raising wait
check. -/
def _validate_icmp_monitor (config : Config) : Except PyExn (List String) :=
  match icmpHostsCheck config with
  | .error e => .error e
  | .ok hostErrs =>
    match waitCheck (lookupV config "wait") with
    | .error e => .error e
    | .ok waitErrs => .ok (hostErrs ++ waitErrs)

/-- The first if/elif chain of `_validate_browser_monitor`.  Python `in`
semantics drive the corners: `'inline' in config['source']` is a substring
test on a string source, `==`-membership on a list source, and raises
`TypeError` otherwise; when the membership succeeds on a non-dict,
`config['source']['inline']` raises `TypeError`. -/
def browserSourceBlock (config : Config) : Except PyExn (List String) :=
  match lookupV config "source" with
  | none => .ok ["Monitor Browser requiere campo \x27source\x27"]
  | some (.dict src) =>
      match lookupV src "inline" with
      | none => .ok ["Monitor Browser requiere source.inline"]
      | some (.dict inl) =>
          .ok (if hasKey inl "script" then []
               else ["Monitor Browser requiere source.inline.script"])
      | some inl =>
          match strInValue "script" inl with
          | .error e => .error e
          | .ok present =>
              .ok (if present then []
                   else ["Monitor Browser requiere source.inline.script"])
  | some (.str s) =>
      if strContainsStr s "inline" then .error .typeError
      else .ok ["Monitor Browser requiere source.inline"]
  | some (.list l) =>
      if l.any (fun v => valueEqStr v "inline") then .error .typeError
      else .ok ["Monitor Browser requiere source.inline"]
  | some _ => .error .typeError

/-- The second block of `_validate_browser_monitor`:
`config['source']['inline'].get('script', '')` raises `AttributeError` when
`inline` is not a dict; the `'journey' not in script` and
`'@elastic/synthetics' not in script` tests follow Python `in` semantics on
the script value. -/
def browserScriptBlock (config : Config) : Except PyExn (List String) :=
  match lookupV config "source" with
  | some (.dict src) =>
      match lookupV src "inline" with
      | some (.dict inl) =>
          match strInValue "journey" ((lookupV inl "script").getD (.str "")) with
          | .error e => .error e
          | .ok hasJourney =>
            match strInValue "@elastic/synthetics"
                ((lookupV inl "script").getD (.str "")) with
            | .error e => .error e
            | .ok hasImport =>
              .ok ((if hasJourney then []
                    else ["Script de Browser debe contener función \x27journey\x27"])
                ++ (if hasImport then []
                    else ["Script de Browser debe importar \x27@elastic/synthetics\x27"]))
      | some _ => .error .attributeError
      | none => .ok []
  | some (.str s) =>
      if strContainsStr s "inline" then .error .typeError else .ok []
  | some (.list l) =>
      if l.any (fun v => valueEqStr v "inline") then .error .typeError else .ok []
  | some _ => .error .typeError
  | none => .ok []

/-- `_validate_browser_monitor`: both blocks in source order. -/
def _validate_browser_monitor (config : Config) : Except PyExn (List String) :=
  match browserSourceBlock config with
  | .error e => .error e
  | .ok firstErrs =>
    match browserScriptBlock config with
    | .error e => .error e
    | .ok secondErrs => .ok (firstErrs ++ secondErrs)

/-- The archetype-specific dispatch of `validate_monitor_config`. -/
def typeSpecificCheck (config : Config) (monitor_type : String) :
    Except PyExn (List String) :=
  if monitor_type = "http" then _validate_http_monitor config
  else if monitor_type = "tcp" then _validate_tcp_monitor config
  else if monitor_type = "icmp" then _validate_icmp_monitor config
  else if monitor_type = "browser" then _validate_browser_monitor config
  else .ok []

/-- `validate_monitor_config`: runs the basic, schedule, timeout, locations
and type-specific checks in source order, accumulating their violations;
an exception raised by any check aborts the call with no result. -/
def validate_monitor_config (config : Config) (monitor_type : String) :
    Except PyExn (Bool × List String) :=
  match _validate_basic_fields config with
  | .error e => .error e
  | .ok e1 =>
    match _validate_schedule (lookupV config "schedule") with
    | .error e => .error e
    | .ok e2 =>
      match _validate_timeout (lookupV config "timeout") with
      | .error e => .error e
      | .ok e3 =>
        match typeSpecificCheck config monitor_type with
        | .error e => .error e
        | .ok e5 =>
          let errors :=
            e1 ++ e2 ++ e3 ++
              _validate_locations (getD config "locations" (.list [])) ++ e5
          .ok (errors.isEmpty, errors)

/-- `validate_classification`: the post-classification shape gate on the
recommended config. -/
def validate_classification (c : MonitorClassification) : Bool × List String :=
  let errors :=
    (if c.confidence < 0.7 then ["Very low confidence in classification"] else [])
    ++ (if hasKey c.recommended_config "schedule" then []
        else ["Missing schedule configuration"])
    ++ (if hasKey c.recommended_config "timeout" then []
        else ["Missing timeout configuration"])
    ++ (if hasKey c.recommended_config "locations" ∧
           valueTruthy (getD c.recommended_config "locations" .null) = true then []
        else ["Missing locations configuration"])
    ++ (if c.elastic_type = .http then
          if hasKey c.recommended_config "max_redirects" then []
          else ["HTTP monitor must have max_redirects configured"]
        else [])
  (errors.isEmpty, errors)

/-- Outcome of the `requests.post` call to the inference backend: either a
raised request exception (timeout, connection error are both subclasses of
`requests.RequestException`) or an HTTP response carrying a status code and
the `response` text field of its JSON body. -/
inductive RequestOutcome where
  | exn
  | response (status : Int) (text : String)

/-- One attempt's view of the inference backend: the request outcome plus
the behaviour of `json.loads` on the extracted span.  A successful
`json.loads` of a span that starts with `{` is necessarily a JSON object,
so the parse result is modelled as the object's fields. -/
structure AIEnv where
  outcome : RequestOutcome
  jsonParse : String → Option Config

/-- The `{` character (written by code point to keep brace characters out
of the source text). -/
def lbrace : Char := Char.ofNat 123

/-- The `}` character. -/
def rbrace : Char := Char.ofNat 125

/-- Python `s.find(c)`: index of the first occurrence, `-1` when absent. -/
def pyFind (c : Char) (l : List Char) : Int :=
  match l.findIdx? (fun x => x = c) with
  | some i => (i : Int)
  | none => -1

/-- Python `s.rfind(c)`: index of the last occurrence, `-1` when absent. -/
def pyRfind (c : Char) (l : List Char) : Int :=
  match l.reverse.findIdx? (fun x => x = c) with
  | some i => (l.length : Int) - 1 - (i : Int)
  | none => -1

/-- Python `s[a:b]` for non-negative bounds. -/
def pySlice (l : List Char) (a b : Int) : List Char :=
  (l.take b.toNat).drop a.toNat

/-- A value in a numeric position; Python accepts floats, ints and bools. -/
def valueToRat : Value → Option ℚ
  | .num q => some q
  | .int n => some (n : ℚ)
  | .bool b => some (if b then 1 else 0)
  | _ => none

/-- The try-block of `_classify_with_ai` before its `except` clause.
A non-200 status returns the fallback classification directly, as does a
missing `{...}` span; `json.loads` failure raises `JSONDecodeError`; a
required key missing from the parsed object raises `KeyError` (the four
constructor arguments are evaluated in source order); an `elastic_type`
outside the enum raises `ValueError`.  Values outside the backend's response
contract (a non-numeric `confidence`, a non-mapping `recommended_config`)
are modelled as `ValueError` too; the source stores them unchecked and
defers the type error to first use, a corner no claim exercises. -/
def ai_try_body (md : MonitorData) (env : AIEnv) :
    Except PyExn MonitorClassification :=
  match env.outcome with
  | .exn => .error .requestException
  | .response status text =>
    if status ≠ 200 then .ok (_rule_based_classification md)
    else
      let json_start := pyFind lbrace text.data
      let json_end := pyRfind rbrace text.data + 1
      if json_start = -1 ∨ json_end = 0 then .ok (_rule_based_classification md)
      else
        match env.jsonParse (String.mk (pySlice text.data json_start json_end)) with
        | none => .error .jsonDecodeError
        | some obj =>
          match lookupV obj "elastic_type" with
          | none => .error .keyError
          | some et =>
            match elasticOfValue et with
            | none => .error .valueError
            | some e =>
              match lookupV obj "confidence" with
              | none => .error .keyError
              | some cv =>
                match lookupV obj "reasoning" with
                | none => .error .keyError
                | some rv =>
                  match lookupV obj "recommended_config" with
                  | none => .error .keyError
                  | some cc =>
                    match valueToRat cv, cc with
                    | some q, .dict d =>
                        .ok { elastic_type := e, confidence := q,
                              reasoning := "AI: " ++ pyStr rv,
                              recommended_config := d }
                    | _, _ => .error .valueError

/-- The exception classes named in the adapter's `except` clause. -/
def caughtByAdapter (e : PyExn) : Bool :=
  e == .jsonDecodeError || e == .keyError || e == .valueError ||
    e == .requestException

/-- `_classify_with_ai`: the try-block guarded by
`except (json.JSONDecodeError, KeyError, ValueError, requests.RequestException)`,
which degrades to the deterministic fallback classifier. -/
def _classify_with_ai (md : MonitorData) (env : AIEnv) :
    Except PyExn MonitorClassification :=
  match ai_try_body md env with
  | .ok c => .ok c
  | .error e =>
      if caughtByAdapter e then .ok (_rule_based_classification md)
      else .error e

/-- The tenacity decorator `retry(stop=stop_after_attempt(3),
wait=wait_exponential(multiplier=1, min=4, max=10))` on `_classify_with_ai`:
the call is re-run only when it raises, at most three attempts, after which
the failure propagates.  Each list entry is the backend behaviour seen by one
attempt; the second component counts the attempts made.  (The backoff delays
affect timing only, not results, and are not modelled.) -/
def tenacityGo (md : MonitorData) :
    Nat → List AIEnv → Nat → Except PyExn MonitorClassification × Nat
  | 0, _, used => (.error .requestException, used)
  | _ + 1, [], used => (.error .requestException, used)
  | k + 1, e :: rest, used =>
      match _classify_with_ai md e with
      | .ok c => (.ok c, used + 1)
      | .error ex =>
          if k = 0 then (.error ex, used + 1) else tenacityGo md k rest (used + 1)

/-- The decorated call as invoked by `classify_monitor`: three attempts. -/
def tenacityRun (md : MonitorData) (envs : List AIEnv) :
    Except PyExn MonitorClassification × Nat :=
  tenacityGo md 3 envs 0

/-- A record with no recognisable fields (every getter at its default). -/
def mdEmpty : MonitorData := {}

/-- A backend behaviour that raises a request exception (e.g. a timeout). -/
def envExn : AIEnv := { outcome := .exn, jsonParse := fun _ => none }

/-- A healthy backend behaviour: HTTP 200, a span, and a parse into a
well-formed classification object. -/
def envGood : AIEnv :=
  { outcome := .response 200 (String.mk ['x', lbrace, 'y', rbrace])
    jsonParse := fun _ =>
      some [("elastic_type", .str "tcp"), ("confidence", .num 1),
            ("reasoning", .str "ok"), ("recommended_config", .dict [])] }

/-- The `UptrendsMonitor` dataclass of `uptrends_client.py`; `monitor_type`
holds the `MonitorType` enum's `.value` string.  Note that no `match_pattern`
field exists. -/
structure UptrendsMonitor where
  monitor_guid : String
  name : String
  url : String
  monitor_type : String
  check_interval : Int
  selected_checkpoints : Config := []
  is_active : Bool
  http_method : Option String := none
  request_headers : Option Value := none
  request_body : Option String := none
  expected_http_status_code : Option Int := none
  user_agent : Option String := none
  load_time_limit1 : Option Int := none
  load_time_limit2 : Option Int := none
  authentication_type : Option String := none
  username : Option String := none
  password : Option String := none
  self_service_transaction_script : Option String := none
  multi_step_api_transaction_script : Option String := none
  msa_steps : Option (List Value) := none
  transaction_step_definition : Option Config := none
  browser_type : Option String := none
  browser_window_dimensions : Option Value := none
  dns_server : Option String := none
  dns_query : Option String := none
  dns_expected_result : Option String := none
  port : Option Int := none
  notes : Option String := none
  generate_alert : Option Bool := none
  monitor_mode : Option String := none

/-- The classifier-relevant projection of the `monitor_data` dictionary that
`_process_monitor` hands to `classify_monitor`. -/
def toMonitorData (m : UptrendsMonitor) : MonitorData :=
  { monitor_type := m.monitor_type
    self_service_transaction_script := m.self_service_transaction_script
    multi_step_api_transaction_script := m.multi_step_api_transaction_script
    msa_steps := m.msa_steps
    transaction_step_definition := m.transaction_step_definition
    browser_type := m.browser_type
    check_interval := some m.check_interval }

/-- Python `x or 200` on an optional int (zero is falsy). -/
def statusOr200 : Option Int → Int
  | some n => if n = 0 then 200 else n
  | none => 200

/-- Python `parsed.port or 80` on an optional int. -/
def portOr80 : Option Int → Int
  | some p => if p = 0 then 80 else p
  | none => 80

/-- `_generate_browser_script`: the scaffold journey emitted for BROWSER
monitors.  Braces and apostrophes of the TypeScript template are written as
escapes. -/
def _generate_browser_script (m : UptrendsMonitor) : String :=
  if strTruthy m.self_service_transaction_script then
    "\nimport \x7b journey, step, expect \x7d from \x27@elastic/synthetics\x27;\n\njourney(\x27"
    ++ m.name ++
    "\x27, (\x7b page, params \x7d) => \x7b\n    step(\x27Navigate to URL\x27, async () => \x7b\n        await page.goto(params.url);\n    \x7d);\n    \n    step(\x27Verify page loaded\x27, async () => \x7b\n        await expect(page).toHaveTitle(/.*/);\n    \x7d);\n    \n    // TODO: Convertir script de Uptrends:\n    // "
    ++ m.self_service_transaction_script.getD "" ++
    "\n\x7d);\n"
  else
    "\nimport \x7b journey, step, expect \x7d from \x27@elastic/synthetics\x27;\n\njourney(\x27"
    ++ m.name ++
    "\x27, (\x7b page, params \x7d) => \x7b\n    step(\x27Navigate to URL\x27, async () => \x7b\n        await page.goto(params.url);\n    \x7d);\n    \n    step(\x27Verify page response\x27, async () => \x7b\n        const response = await page.waitForResponse(params.url);\n        expect(response.status()).toBe("
    ++ toString (statusOr200 m.expected_http_status_code) ++
    ");\n    \x7d);\n\x7d);\n"

/-- The `base_config` dictionary of `_generate_monitor_config` before the
archetype-specific update. -/
def base_config_of (m : UptrendsMonitor) (c : MonitorClassification) : Config :=
  [("name", .str m.name),
   ("id", .str ("monitor-" ++ m.monitor_guid)),
   ("type", .str c.elastic_type.value),
   ("enabled", .bool m.is_active),
   ("schedule", getD c.recommended_config "schedule" (.str "@every 5m")),
   ("timeout", getD c.recommended_config "timeout" (.str "30s")),
   ("locations", getD c.recommended_config "locations" (.list [.str "us_central"])),
   ("tags", .list [.str "migrated-from-uptrends"]),
   ("original_uptrends_id", .str m.monitor_guid)]

/-- The HTTP-branch dictionary of `_generate_monitor_config` as it stands
immediately before the source reads `monitor.match_pattern` (line 231 of
`migration_script.py`). -/
def http_config_built (m : UptrendsMonitor) (c : MonitorClassification) : Config :=
  base_config_of m c
  ++ [("urls", .list [.str m.url]),
      ("max_redirects", getD c.recommended_config "max_redirects" (.int 3)),
      ("mode", .str "any")]
  ++ (match m.http_method with
      | some s => if !s.data.isEmpty then [("method", .str s)] else []
      | none => [])
  ++ (match m.request_headers with
      | some v => if valueTruthy v then [("headers", v)] else []
      | none => [])
  ++ (match m.request_body with
      | some s => if !s.data.isEmpty then [("body", .str s)] else []
      | none => [])
  ++ (match m.expected_http_status_code with
      | some n => if n ≠ 0 then [("check.response.status", .list [.int n])] else []
      | none => [])

/-- `_generate_monitor_config`.  The HTTP branch assembles
`http_config_built` and then evaluates `monitor.match_pattern`; the
`UptrendsMonitor` dataclass defines no such field, so the attribute access
raises `AttributeError` before any config is returned. -/
def _generate_monitor_config (m : UptrendsMonitor) (c : MonitorClassification) :
    Except PyExn Config :=
  if c.elastic_type.value = "http" then
    .error .attributeError
  else if c.elastic_type.value = "tcp" then
    .ok (base_config_of m c ++
      [("hosts", .list [.str ((pyHostname m.url).getD "None" ++ ":" ++
          toString (portOr80 (pyPort m.url)))]),
       ("check.send", .str ""),
       ("check.receive", .str "")])
  else if c.elastic_type.value = "icmp" then
    .ok (base_config_of m c ++
      [("hosts", .list [.str ((pyHostname m.url).getD m.url)]),
       ("wait", .str "1s")])
  else if c.elastic_type.value = "browser" then
    .ok (base_config_of m c ++
      [("source", .dict [("inline", .dict
          [("script", .str (_generate_browser_script m))])]),
       ("params", .dict [("url", .str m.url)])])
  else
    .ok (base_config_of m c)

/-- The minimal valid HTTP record of the round-trip property. -/
def minimalHttpMonitor : UptrendsMonitor :=
  { monitor_guid := "9232815e-d30c-4481-b906-15e245e09482"
    name := "Minimal Monitor"
    url := "http://example.com"
    monitor_type := "Http"
    check_interval := 120
    is_active := true }

/-- One entry of the predefined monitor list of `migrate_monitors`. -/
structure MonitorInfo where
  guid : String
  name : String

/-- The observable outcome of one monitor's iteration inside the driver
loop: the detail fetch returns nothing, `_process_monitor` returns a result
whose `success` flag drives the counters, or an exception escapes to the
per-monitor handler. -/
inductive StepOutcome where
  | fetchFailed
  | processed (success : Bool)
  | exn

/-- The `results` dictionary of `migrate_monitors` (the per-monitor entries
are reduced to their `success` flags). -/
structure MigrationResults where
  total_monitors : Nat
  successful_migrations : Nat
  failed_migrations : Nat
  monitors : List Bool

/-- The hardcoded monitor list of `migrate_monitors`. -/
def predefined_monitors : List MonitorInfo :=
  [{ guid := "9232815e-d30c-4481-b906-15e245e09482",
     name := "A Jenkins Core common-services-us" },
   { guid := "7b7e9653-59c2-4b2a-a6e9-98462fe60ef0",
     name := "CLVT-US-ALM-CommonServices-Beta-CommonServicesBeta" },
   { guid := "b3a129ef-d19a-47b1-a480-a100d9c303c5",
     name := "CLVT-US-ALM-CommonServices-Prd-CommonServices" },
   { guid := "7f8b86ca-34be-4027-b45e-c20d64ae9d80",
     name := "CCDM Common Service Prod" }]

/-- The case-insensitive substring filter applied when a name pattern is
given. -/
def filter_by_pattern (pat : Option String) (l : List MonitorInfo) :
    List MonitorInfo :=
  match pat with
  | none => l
  | some p => l.filter (fun m => strContainsStr (pyLower m.name) (pyLower p))

/-- One iteration of the driver loop: the fetch-failed and exception paths
increment only the failure counter; a processed result is appended to the
per-monitor list and counted by its success flag. -/
def migrate_step (behave : MonitorInfo → StepOutcome) (acc : MigrationResults)
    (m : MonitorInfo) : MigrationResults :=
  match behave m with
  | .fetchFailed => { acc with failed_migrations := acc.failed_migrations + 1 }
  | .processed success =>
      if success then
        { acc with monitors := acc.monitors ++ [success],
                   successful_migrations := acc.successful_migrations + 1 }
      else
        { acc with monitors := acc.monitors ++ [success],
                   failed_migrations := acc.failed_migrations + 1 }
  | .exn => { acc with failed_migrations := acc.failed_migrations + 1 }

/-- The driver loop over a monitor list: an empty list returns the all-zero
results early; otherwise `total_monitors` is set to the list length and each
monitor is processed in turn. -/
def run_migration (monitors_list : List MonitorInfo)
    (behave : MonitorInfo → StepOutcome) : MigrationResults :=
  if monitors_list.isEmpty then
    { total_monitors := 0, successful_migrations := 0,
      failed_migrations := 0, monitors := [] }
  else
    monitors_list.foldl (migrate_step behave)
      { total_monitors := monitors_list.length, successful_migrations := 0,
        failed_migrations := 0, monitors := [] }

/-- `migrate_monitors`: the predefined list, optionally filtered, run through
the driver loop. -/
def migrate_monitors (pat : Option String)
    (behave : MonitorInfo → StepOutcome) : MigrationResults :=
  run_migration (filter_by_pattern pat predefined_monitors) behave

/-- The id-format violation message of `_validate_basic_fields`. -/
def idMsg : String :=
  "El ID solo puede contener letras, números, guiones y guiones bajos"

/-- The seconds-range violation message of `_validate_timeout`. -/
def timeoutRangeMsg : String := "Timeout debe estar entre 1s y 180s"

/-- A config whose id is the empty string: present, not matching the
id regex, yet skipped by the truthiness guard. -/
def cfgEmptyId : Config := [("id", Value.str "")]

/-- A config whose timeout is the single letter "s": the source validator
crashes on it (`re.search(r\x27(\\d+)s\x27, "s")` is `None`, so `.group(1)`
raises `AttributeError`). -/
def cfgCrashTimeout : Config := [("timeout", Value.str "s")]

/-- A config with the spec's negative-case id. -/
def cfgBadId : Config := [("id", Value.str "bad id!")]

/-- A config with the spec's negative-case timeout. -/
def cfgBadTimeout : Config := [("timeout", Value.str "200s")]

/-- A concrete simple HTTP monitor record, used to witness C1. -/
def mdHttpSimple : MonitorData :=
  { monitor_type := "Http", check_interval := some 120 }

/-- C1: for every record whose lower-cased source type is one of http, https,
ping, tcp, dns, smtp, pop3, imap, sftp and with no complexity signal set, the
rule classifier returns a non-NONE classification whose archetype, confidence,
config extras and schedule bucket match the fixed table: http/https → HTTP
0.95 with max_redirects=3 and mode "any"; ping → ICMP 0.98 with wait 1s;
tcp → TCP 0.95; dns → ICMP 0.85 with wait 1s; smtp/pop3/imap/sftp → TCP
0.90. -/
theorem claim_C1 (md : MonitorData)
    (hsimple : has_complex_features md = false)
    (htype : pyLower md.monitor_type ∈
      ["http", "https", "ping", "tcp", "dns", "smtp", "pop3", "imap", "sftp"]) :
    ∃ c, _classify_with_rules md = some c ∧
      ((pyLower md.monitor_type ∈ ["http", "https"] ∧
          c.elastic_type = .http ∧ c.confidence = 0.95 ∧
          c.recommended_config =
            [("schedule", .str (_get_schedule_from_interval
                (md.check_interval.getD 300))),
             ("timeout", .str "30s"),
             ("locations", .list [.str "us_central"]),
             ("max_redirects", .int 3),
             ("mode", .str "any")]) ∨
       (pyLower md.monitor_type = "ping" ∧
          c.elastic_type = .icmp ∧ c.confidence = 0.98 ∧
          c.recommended_config =
            [("schedule", .str (_get_schedule_from_interval
                (md.check_interval.getD 300))),
             ("timeout", .str "10s"),
             ("locations", .list [.str "us_central"]),
             ("wait", .str "1s")]) ∨
       (pyLower md.monitor_type = "tcp" ∧
          c.elastic_type = .tcp ∧ c.confidence = 0.95 ∧
          c.recommended_config =
            [("schedule", .str (_get_schedule_from_interval
                (md.check_interval.getD 300))),
             ("timeout", .str "30s"),
             ("locations", .list [.str "us_central"])]) ∨
       (pyLower md.monitor_type = "dns" ∧
          c.elastic_type = .icmp ∧ c.confidence = 0.85 ∧
          c.recommended_config =
            [("schedule", .str (_get_schedule_from_interval
                (md.check_interval.getD 300))),
             ("timeout", .str "10s"),
             ("locations", .list [.str "us_central"]),
             ("wait", .str "1s")]) ∨
       (pyLower md.monitor_type ∈ ["smtp", "pop3", "imap", "sftp"] ∧
          c.elastic_type = .tcp ∧ c.confidence = 0.90 ∧
          c.recommended_config =
            [("schedule", .str (_get_schedule_from_interval
                (md.check_interval.getD 300))),
             ("timeout", .str "30s"),
             ("locations", .list [.str "us_central"])])) := by
  simp only [List.mem_cons, List.not_mem_nil, or_false] at htype
  unfold _classify_with_rules
  rcases htype with h | h | h | h | h | h | h | h | h <;>
    rw [h] <;>
    simp [hsimple, _get_http_config, _get_icmp_config, _get_tcp_config]

/-- Witness for C1 at a concrete simple HTTP record. -/
theorem claim_C1_witness :
    has_complex_features mdHttpSimple = false ∧
    pyLower mdHttpSimple.monitor_type ∈
      ["http", "https", "ping", "tcp", "dns", "smtp", "pop3", "imap", "sftp"] ∧
    ∃ c, _classify_with_rules mdHttpSimple = some c ∧
      ((pyLower mdHttpSimple.monitor_type ∈ ["http", "https"] ∧
          c.elastic_type = .http ∧ c.confidence = 0.95 ∧
          c.recommended_config =
            [("schedule", .str (_get_schedule_from_interval
                (mdHttpSimple.check_interval.getD 300))),
             ("timeout", .str "30s"),
             ("locations", .list [.str "us_central"]),
             ("max_redirects", .int 3),
             ("mode", .str "any")]) ∨
       (pyLower mdHttpSimple.monitor_type = "ping" ∧
          c.elastic_type = .icmp ∧ c.confidence = 0.98 ∧
          c.recommended_config =
            [("schedule", .str (_get_schedule_from_interval
                (mdHttpSimple.check_interval.getD 300))),
             ("timeout", .str "10s"),
             ("locations", .list [.str "us_central"]),
             ("wait", .str "1s")]) ∨
       (pyLower mdHttpSimple.monitor_type = "tcp" ∧
          c.elastic_type = .tcp ∧ c.confidence = 0.95 ∧
          c.recommended_config =
            [("schedule", .str (_get_schedule_from_interval
                (mdHttpSimple.check_interval.getD 300))),
             ("timeout", .str "30s"),
             ("locations", .list [.str "us_central"])]) ∨
       (pyLower mdHttpSimple.monitor_type = "dns" ∧
          c.elastic_type = .icmp ∧ c.confidence = 0.85 ∧
          c.recommended_config =
            [("schedule", .str (_get_schedule_from_interval
                (mdHttpSimple.check_interval.getD 300))),
             ("timeout", .str "10s"),
             ("locations", .list [.str "us_central"]),
             ("wait", .str "1s")]) ∨
       (pyLower mdHttpSimple.monitor_type ∈ ["smtp", "pop3", "imap", "sftp"] ∧
          c.elastic_type = .tcp ∧ c.confidence = 0.90 ∧
          c.recommended_config =
            [("schedule", .str (_get_schedule_from_interval
                (mdHttpSimple.check_interval.getD 300))),
             ("timeout", .str "30s"),
             ("locations", .list [.str "us_central"])])) :=
  ⟨by decide, by decide, claim_C1 mdHttpSimple (by decide) (by decide)⟩

/-- C2: any script/complexity signal (scripted-transaction body, multi-step
API script, multi-step definitions, step-definition object, browser engine,
or declared Transaction/MultiStepApi type) forces the rule classifier to
return NONE. -/
theorem claim_C2 (md : MonitorData)
    (hsig : strTruthy md.self_service_transaction_script = true ∨
            strTruthy md.multi_step_api_transaction_script = true ∨
            listTruthy md.msa_steps = true ∨
            dictTruthy md.transaction_step_definition = true ∨
            strTruthy md.browser_type = true ∨
            pyLower md.monitor_type ∈ ["transaction", "multistepapi"]) :
    _classify_with_rules md = none := by
  have h : has_complex_features md = true := by
    unfold has_complex_features
    rcases hsig with h | h | h | h | h | h <;> simp [h]
  unfold _classify_with_rules
  simp [h]

/-- Witness for C2: an http-typed record with a scripted-transaction body is
deferred to the AI classifier. -/
theorem claim_C2_witness :
    _classify_with_rules
      { monitor_type := "Http",
        self_service_transaction_script := some "script body" } = none :=
  claim_C2 _ (Or.inl (by decide))

lemma scheduleSeconds_1m : scheduleSeconds "@every 1m" = 60 := rfl

lemma scheduleSeconds_3m : scheduleSeconds "@every 3m" = 180 := rfl

lemma scheduleSeconds_5m : scheduleSeconds "@every 5m" = 300 := rfl

lemma scheduleSeconds_10m : scheduleSeconds "@every 10m" = 600 := rfl

lemma scheduleSeconds_15m : scheduleSeconds "@every 15m" = 900 := rfl

lemma scheduleSeconds_30m : scheduleSeconds "@every 30m" = 1800 := rfl

lemma scheduleSeconds_1h : scheduleSeconds "@every 1h" = 3600 := rfl

/-- C7 counterexample: the interval 3601 is larger than 3600 yet maps to the
strictly shorter schedule "@every 5m" (the default fallback), so the bucketing
is not monotonic as claimed. -/
theorem claim_C7_counterexample :
    (3600 : Int) < 3601 ∧
    _get_schedule_from_interval 3600 = "@every 1h" ∧
    _get_schedule_from_interval 3601 = "@every 5m" ∧
    scheduleSeconds (_get_schedule_from_interval 3601) <
      scheduleSeconds (_get_schedule_from_interval 3600) := by
  refine ⟨by decide, by decide, by decide, by decide⟩

set_option maxHeartbeats 1600000 in
/-- C7 (amended): the bucketing is total (every integer interval maps to one
of the seven schedule strings) and monotonic on intervals up to 3600 seconds;
intervals above 3600 fall back to "@every 5m", which breaks monotonicity at
that boundary. -/
theorem claim_C7_amended :
    (∀ i : Int, _get_schedule_from_interval i ∈ scheduleStrings) ∧
    (∀ a b : Int, a ≤ b → b ≤ 3600 →
      scheduleSeconds (_get_schedule_from_interval a) ≤
        scheduleSeconds (_get_schedule_from_interval b)) ∧
    (∀ i : Int, 3600 < i → _get_schedule_from_interval i = "@every 5m") := by
  refine ⟨?_, ?_, ?_⟩
  · intro i
    unfold _get_schedule_from_interval
    split_ifs <;> decide
  · intro a b hab hb
    unfold _get_schedule_from_interval
    split_ifs <;>
      simp only [scheduleSeconds_1m, scheduleSeconds_3m, scheduleSeconds_5m,
        scheduleSeconds_10m, scheduleSeconds_15m, scheduleSeconds_30m,
        scheduleSeconds_1h] <;>
      omega
  · intro i hi
    unfold _get_schedule_from_interval
    split_ifs <;> first | rfl | (exfalso; omega)

/-- Witness for the amended C7 at concrete intervals. -/
theorem claim_C7_witness :
    _get_schedule_from_interval 100 ∈ scheduleStrings ∧
    scheduleSeconds (_get_schedule_from_interval 100) ≤
      scheduleSeconds (_get_schedule_from_interval 200) ∧
    _get_schedule_from_interval 4000 = "@every 5m" :=
  ⟨claim_C7_amended.1 100,
   claim_C7_amended.2.1 100 200 (by decide) (by decide),
   claim_C7_amended.2.2 4000 (by decide)⟩

lemma validate_ok_decompose (config : Config) (mt : String) (ok : Bool)
    (errs : List String)
    (h : validate_monitor_config config mt = .ok (ok, errs)) :
    ∃ e1 e2 e3 e5,
      _validate_basic_fields config = .ok e1 ∧
      _validate_schedule (lookupV config "schedule") = .ok e2 ∧
      _validate_timeout (lookupV config "timeout") = .ok e3 ∧
      typeSpecificCheck config mt = .ok e5 ∧
      errs = e1 ++ e2 ++ e3 ++
        _validate_locations (getD config "locations" (.list [])) ++ e5 := by
  unfold validate_monitor_config at h
  split at h
  · simp at h
  · split at h
    · simp at h
    · split at h
      · simp at h
      · split at h
        · simp at h
        · simp only [Except.ok.injEq, Prod.mk.injEq] at h
          exact ⟨_, _, _, _, by assumption, by assumption, by assumption,
            by assumption, h.2.symm⟩

lemma basic_ok_mem_missing (config : Config) (f : String) (errs : List String)
    (hf : f ∈ requiredFields) (hkey : hasKey config f = false)
    (hres : _validate_basic_fields config = .ok errs) :
    ("Campo obligatorio faltante: " ++ f) ∈ errs := by
  unfold _validate_basic_fields at hres
  split at hres
  · simp at hres
  · split at hres
    · simp at hres
    · simp only [Except.ok.injEq] at hres
      subst hres
      simp only [List.mem_append]
      refine Or.inl (Or.inl (Or.inl (Or.inl ?_)))
      exact List.mem_map.mpr ⟨f, List.mem_filter.mpr ⟨hf, by simp [hkey]⟩, rfl⟩

/-- C5 counterexample: the validator does not return a result for every
input.  A config whose timeout is the single letter "s" (and which is also
missing both name and schedule) makes `_validate_timeout` raise
`AttributeError` (`re.search(r\x27(\\d+)s\x27, "s").group(1)` on `None`), so
`validate_monitor_config` aborts with no violation list at all. -/
theorem claim_C5_counterexample :
    hasKey cfgCrashTimeout "name" = false ∧
    hasKey cfgCrashTimeout "schedule" = false ∧
    validate_monitor_config cfgCrashTimeout "http" =
      Except.error PyExn.attributeError :=
  ⟨rfl, rfl, rfl⟩

/-- C5 (amended): whenever the validator returns a result for a config
missing both name and schedule, that result accumulates (at least) two
distinct violation entries, one for the missing name and one for the missing
schedule; but the validator does not return a result for every input — a
unit letter with no digit run in schedule/timeout raises `AttributeError`
and truthy non-string name/id values raise `TypeError`. -/
theorem claim_C5_amended (config : Config) (monitor_type : String) (ok : Bool)
    (errs : List String)
    (hres : validate_monitor_config config monitor_type = .ok (ok, errs))
    (hname : hasKey config "name" = false)
    (hsched : hasKey config "schedule" = false) :
    "Campo obligatorio faltante: name" ∈ errs ∧
    "Campo obligatorio faltante: schedule" ∈ errs ∧
    ("Campo obligatorio faltante: name" : String) ≠
      "Campo obligatorio faltante: schedule" := by
  obtain ⟨e1, e2, e3, e5, h1, h2, h3, h5, herrs⟩ :=
    validate_ok_decompose config monitor_type ok errs hres
  subst herrs
  refine ⟨?_, ?_, by decide⟩
  · simp only [List.mem_append]
    exact Or.inl (Or.inl (Or.inl (Or.inl
      (basic_ok_mem_missing config "name" e1 (by simp [requiredFields]) hname h1))))
  · simp only [List.mem_append]
    exact Or.inl (Or.inl (Or.inl (Or.inl
      (basic_ok_mem_missing config "schedule" e1 (by simp [requiredFields]) hsched h1))))

/-- Witness for the amended C5 at the empty config. -/
theorem claim_C5_witness :
    hasKey ([] : Config) "name" = false ∧
    hasKey ([] : Config) "schedule" = false ∧
    ∃ ok errs, validate_monitor_config [] "http" = .ok (ok, errs) ∧
      ("Campo obligatorio faltante: name" ∈ errs ∧
       "Campo obligatorio faltante: schedule" ∈ errs ∧
       ("Campo obligatorio faltante: name" : String) ≠
         "Campo obligatorio faltante: schedule") :=
  ⟨rfl, rfl, _, _, rfl, claim_C5_amended [] "http" _ _ rfl rfl rfl⟩

/-- C8: the post-classification gate fails exactly when confidence is below
0.70, or schedule or timeout is missing from the recommended config, or
locations is missing or empty, or (for HTTP only) max_redirects is absent;
it returns the flag with the violation list and never raises. -/
theorem claim_C8 (c : MonitorClassification)
    (hloc : ∀ v, lookupV c.recommended_config "locations" = some v →
      ∃ l, v = Value.list l) :
    (validate_classification c).1 = false ↔
      (c.confidence < 0.7 ∨
       hasKey c.recommended_config "schedule" = false ∨
       hasKey c.recommended_config "timeout" = false ∨
       lookupV c.recommended_config "locations" = none ∨
       lookupV c.recommended_config "locations" = some (Value.list []) ∨
       (c.elastic_type = .http ∧ hasKey c.recommended_config "max_redirects" = false)) := by
  have hlocEq : (hasKey c.recommended_config "locations" ∧
      valueTruthy (getD c.recommended_config "locations" .null) = true) ↔
      ¬(lookupV c.recommended_config "locations" = none ∨
        lookupV c.recommended_config "locations" = some (Value.list [])) := by
    cases h : lookupV c.recommended_config "locations" with
    | none => simp [hasKey, h]
    | some v =>
      obtain ⟨l, rfl⟩ := hloc v h
      cases l <;> simp [hasKey, getD, h, valueTruthy]
  unfold validate_classification
  by_cases h1 : c.confidence < 0.7 <;>
    by_cases h2 : hasKey c.recommended_config "schedule" <;>
    by_cases h3 : hasKey c.recommended_config "timeout" <;>
    by_cases h4 : (hasKey c.recommended_config "locations" ∧
      valueTruthy (getD c.recommended_config "locations" .null) = true) <;>
    by_cases h5 : c.elastic_type = .http <;>
    by_cases h6 : hasKey c.recommended_config "max_redirects" <;>
    rw [hlocEq] at h4 <;>
    simp_all <;> tauto

/-- Witness for C8 at a concrete classification missing its timeout. -/
theorem claim_C8_witness :
    (validate_classification
        { elastic_type := .http, confidence := 0.9, reasoning := "r",
          recommended_config :=
            [("schedule", Value.str "@every 5m"),
             ("locations", Value.list [Value.str "us_central"]),
             ("max_redirects", Value.int 3)] }).1 = false ↔
      ((0.9 : ℚ) < 0.7 ∨
       hasKey [("schedule", Value.str "@every 5m"),
               ("locations", Value.list [Value.str "us_central"]),
               ("max_redirects", Value.int 3)] "schedule" = false ∨
       hasKey [("schedule", Value.str "@every 5m"),
               ("locations", Value.list [Value.str "us_central"]),
               ("max_redirects", Value.int 3)] "timeout" = false ∨
       lookupV [("schedule", Value.str "@every 5m"),
                ("locations", Value.list [Value.str "us_central"]),
                ("max_redirects", Value.int 3)] "locations" = none ∨
       lookupV [("schedule", Value.str "@every 5m"),
                ("locations", Value.list [Value.str "us_central"]),
                ("max_redirects", Value.int 3)] "locations" = some (Value.list []) ∨
       (ElasticMonitorType.http = .http ∧
        hasKey [("schedule", Value.str "@every 5m"),
                ("locations", Value.list [Value.str "us_central"]),
                ("max_redirects", Value.int 3)] "max_redirects" = false)) :=
  claim_C8 _ (by intro v hv; simp [lookupV] at hv; exact ⟨_, hv.symm⟩)

lemma data_append (a b : String) : (a ++ b).data = a.data ++ b.data := by
  cases a; cases b; rfl

lemma ne_idMsg_of_ne_head (x : String) (c : Char) (hx : x.data.get? 0 = some c)
    (hc : c ≠ 'E') : x ≠ idMsg := by
  intro he
  rw [he] at hx
  have h0 : idMsg.data.get? 0 = some 'E' := rfl
  rw [h0] at hx
  exact hc (Option.some.inj hx).symm

lemma sched_fmt_ne_idMsg (r : String) :
    "Formato de schedule inválido: " ++ r ++ ". Formato correcto: @every 5m" ≠ idMsg :=
  ne_idMsg_of_ne_head _ 'F' (by rw [data_append, data_append]; rfl) (by decide)

lemma timeout_fmt_ne_idMsg (r : String) :
    "Formato de timeout inválido: " ++ r ++ ". Formato correcto: 30s" ≠ idMsg :=
  ne_idMsg_of_ne_head _ 'F' (by rw [data_append, data_append]; rfl) (by decide)

lemma tipo_ne_idMsg (r : String) :
    "Tipo de monitor inválido: " ++ r ++
      ". Tipos válidos: [\x27http\x27, \x27tcp\x27, \x27icmp\x27, \x27browser\x27]" ≠ idMsg :=
  ne_idMsg_of_ne_head _ 'T' (by rw [data_append, data_append]; rfl) (by decide)

lemma ubicacion_ne_idMsg (r : String) : "Ubicación inválida: " ++ r ≠ idMsg :=
  ne_idMsg_of_ne_head _ 'U' (by rw [data_append]; rfl) (by decide)

lemma url_ne_idMsg (r : String) : "URL inválida: " ++ r ≠ idMsg :=
  ne_idMsg_of_ne_head _ 'U' (by rw [data_append]; rfl) (by decide)

lemma metodo_ne_idMsg (r : String) : "Método HTTP inválido: " ++ r ≠ idMsg :=
  ne_idMsg_of_ne_head _ 'M' (by rw [data_append]; rfl) (by decide)

lemma codigo_ne_idMsg (r : String) : "Código de estado inválido: " ++ r ≠ idMsg :=
  ne_idMsg_of_ne_head _ 'C' (by rw [data_append]; rfl) (by decide)

lemma hostport_ne_idMsg (r : String) : "Host:puerto inválido: " ++ r ≠ idMsg :=
  ne_idMsg_of_ne_head _ 'H' (by rw [data_append]; rfl) (by decide)

lemma host_ne_idMsg (r : String) : "Host inválido: " ++ r ≠ idMsg :=
  ne_idMsg_of_ne_head _ 'H' (by rw [data_append]; rfl) (by decide)

lemma wait_fmt_ne_idMsg (r : String) : "Formato de wait inválido: " ++ r ≠ idMsg :=
  ne_idMsg_of_ne_head _ 'F' (by rw [data_append]; rfl) (by decide)

lemma idMsg_not_mem_nameCheck (v : Option Value) (es : List String)
    (hres : nameCheck v = .ok es) : idMsg ∉ es := by
  unfold nameCheck at hres
  split at hres <;> try split_ifs at hres
  all_goals
    first
      | exact Except.noConfusion hres
      | (simp only [Except.ok.injEq] at hres; subst hres; decide)

lemma idMsg_not_mem_schedule (v : Option Value) (es : List String)
    (hres : _validate_schedule v = .ok es) : idMsg ∉ es := by
  unfold _validate_schedule at hres
  split at hres
  · rename_i s
    split at hres
    · simp only [Except.ok.injEq] at hres
      subst hres
      decide
    · split at hres
      · split at hres
        · rename_i n _
          simp only [Except.ok.injEq] at hres
          subst hres
          simp only [List.mem_append, not_or]
          constructor
          · by_cases hf : schedFormatMatch s.data = true
            · rw [if_pos hf]; decide
            · rw [if_neg hf]
              simp only [List.mem_singleton]
              exact fun h => sched_fmt_ne_idMsg s h.symm
          · by_cases hn : n < 10
            · rw [if_pos hn]; decide
            · rw [if_neg hn]; decide
        · simp at hres
      · simp only [Except.ok.injEq] at hres
        subst hres
        by_cases hf : schedFormatMatch s.data = true
        · rw [if_pos hf]; decide
        · rw [if_neg hf]
          simp only [List.mem_singleton]
          exact fun h => sched_fmt_ne_idMsg s h.symm
  · split at hres
    · simp at hres
    · simp only [Except.ok.injEq] at hres
      subst hres
      decide
  · simp only [Except.ok.injEq] at hres
    subst hres
    decide

lemma idMsg_not_mem_timeout (v : Option Value) (es : List String)
    (hres : _validate_timeout v = .ok es) : idMsg ∉ es := by
  unfold _validate_timeout at hres
  split at hres
  · rename_i s
    split at hres
    · simp only [Except.ok.injEq] at hres
      subst hres
      decide
    · split at hres
      · split at hres
        · rename_i n _
          simp only [Except.ok.injEq] at hres
          subst hres
          simp only [List.mem_append, not_or]
          constructor
          · by_cases hf : durFormatMatch s.data = true
            · rw [if_pos hf]; decide
            · rw [if_neg hf]
              simp only [List.mem_singleton]
              exact fun h => timeout_fmt_ne_idMsg s h.symm
          · by_cases hn : n < 1 ∨ n > 180
            · rw [if_pos hn]; decide
            · rw [if_neg hn]; decide
        · simp at hres
      · split at hres
        · split at hres
          · rename_i n _
            simp only [Except.ok.injEq] at hres
            subst hres
            simp only [List.mem_append, not_or]
            constructor
            · by_cases hf : durFormatMatch s.data = true
              · rw [if_pos hf]; decide
              · rw [if_neg hf]
                simp only [List.mem_singleton]
                exact fun h => timeout_fmt_ne_idMsg s h.symm
            · by_cases hn : n < 1 ∨ n > 3
              · rw [if_pos hn]; decide
              · rw [if_neg hn]; decide
          · simp at hres
        · simp only [Except.ok.injEq] at hres
          subst hres
          by_cases hf : durFormatMatch s.data = true
          · rw [if_pos hf]; decide
          · rw [if_neg hf]
            simp only [List.mem_singleton]
            exact fun h => timeout_fmt_ne_idMsg s h.symm
  · split at hres
    · simp at hres
    · simp only [Except.ok.injEq] at hres
      subst hres
      decide
  · simp only [Except.ok.injEq] at hres
    subst hres
    decide

lemma idMsg_not_mem_locations (v : Value) : idMsg ∉ _validate_locations v := by
  unfold _validate_locations
  split_ifs with ht
  · decide
  · split
    · intro hm
      obtain ⟨a, -, ha⟩ := List.mem_filterMap.mp hm
      split at ha
      · split at ha
        · exact Option.noConfusion ha
        · exact ubicacion_ne_idMsg _ (Option.some.inj ha)
      · exact ubicacion_ne_idMsg _ (Option.some.inj ha)
    · decide

lemma idMsg_not_mem_methodCheck (v : Option Value) (es : List String)
    (hres : methodCheck v = .ok es) : idMsg ∉ es := by
  unfold methodCheck at hres
  split at hres
  · rename_i m
    simp only [Except.ok.injEq] at hres
    subst hres
    by_cases hv : decide (pyUpper m ∈ valid_methods) = true
    · rw [if_pos hv]; decide
    · rw [if_neg hv]
      simp only [List.mem_singleton]
      exact fun h => metodo_ne_idMsg m h.symm
  · simp at hres
  · simp only [Except.ok.injEq] at hres
    subst hres
    decide

lemma idMsg_not_mem_http (config : Config) (es : List String)
    (hres : _validate_http_monitor config = .ok es) : idMsg ∉ es := by
  unfold _validate_http_monitor at hres
  split at hres
  · simp at hres
  · rename_i methodErrs hm
    simp only [Except.ok.injEq] at hres
    subst hres
    simp only [List.mem_append, not_or]
    refine ⟨⟨⟨⟨?_, ?_⟩, ?_⟩, ?_⟩, ?_⟩
    · split
      · decide
      · decide
      · intro hmem
        obtain ⟨a, -, ha⟩ := List.mem_filterMap.mp hmem
        split at ha
        · split at ha
          · exact Option.noConfusion ha
          · exact url_ne_idMsg _ (Option.some.inj ha)
        · exact url_ne_idMsg _ (Option.some.inj ha)
      · decide
    · exact idMsg_not_mem_methodCheck _ _ hm
    · split <;> first | decide | (split_ifs <;> decide)
    · split <;> decide
    · split
      · intro hmem
        obtain ⟨a, -, ha⟩ := List.mem_filterMap.mp hmem
        split at ha
        · split at ha
          · exact codigo_ne_idMsg _ (Option.some.inj ha)
          · exact Option.noConfusion ha
        · exact codigo_ne_idMsg _ (Option.some.inj ha)
      · decide
      · decide

lemma idMsg_not_mem_tcp (config : Config) (es : List String)
    (hres : _validate_tcp_monitor config = .ok es) : idMsg ∉ es := by
  unfold _validate_tcp_monitor at hres
  split at hres
  · simp only [Except.ok.injEq] at hres
    subst hres
    decide
  · simp only [Except.ok.injEq] at hres
    subst hres
    decide
  · split_ifs at hres
    · simp only [Except.ok.injEq] at hres
      subst hres
      intro hmem
      obtain ⟨a, -, ha⟩ := List.mem_filterMap.mp hmem
      split at ha
      · split at ha
        · exact Option.noConfusion ha
        · exact hostport_ne_idMsg _ (Option.some.inj ha)
      · exact hostport_ne_idMsg _ (Option.some.inj ha)
  · simp only [Except.ok.injEq] at hres
    subst hres
    decide

lemma idMsg_not_mem_icmpHosts (config : Config) (es : List String)
    (hres : icmpHostsCheck config = .ok es) : idMsg ∉ es := by
  unfold icmpHostsCheck at hres
  split at hres
  · simp only [Except.ok.injEq] at hres
    subst hres
    decide
  · simp only [Except.ok.injEq] at hres
    subst hres
    decide
  · split_ifs at hres
    · simp only [Except.ok.injEq] at hres
      subst hres
      intro hmem
      obtain ⟨a, -, ha⟩ := List.mem_filterMap.mp hmem
      split at ha
      · split at ha
        · exact Option.noConfusion ha
        · exact host_ne_idMsg _ (Option.some.inj ha)
      · exact host_ne_idMsg _ (Option.some.inj ha)
  · simp only [Except.ok.injEq] at hres
    subst hres
    decide

lemma idMsg_not_mem_waitCheck (v : Option Value) (es : List String)
    (hres : waitCheck v = .ok es) : idMsg ∉ es := by
  unfold waitCheck at hres
  split at hres
  · rename_i w
    simp only [Except.ok.injEq] at hres
    subst hres
    by_cases hw : durFormatMatch w.data = true
    · rw [if_pos hw]; decide
    · rw [if_neg hw]
      simp only [List.mem_singleton]
      exact fun h => wait_fmt_ne_idMsg w h.symm
  · simp at hres
  · simp only [Except.ok.injEq] at hres
    subst hres
    decide

lemma idMsg_not_mem_icmp (config : Config) (es : List String)
    (hres : _validate_icmp_monitor config = .ok es) : idMsg ∉ es := by
  unfold _validate_icmp_monitor at hres
  split at hres
  · simp at hres
  · split at hres
    · simp at hres
    · simp only [Except.ok.injEq] at hres
      subst hres
      simp only [List.mem_append, not_or]
      exact ⟨idMsg_not_mem_icmpHosts _ _ (by assumption),
        idMsg_not_mem_waitCheck _ _ (by assumption)⟩

lemma idMsg_not_mem_browserSource (config : Config) (es : List String)
    (hres : browserSourceBlock config = .ok es) : idMsg ∉ es := by
  unfold browserSourceBlock at hres
  split at hres <;> try split at hres <;> try split at hres
  all_goals try split_ifs at hres
  all_goals
    first
      | exact Except.noConfusion hres
      | (simp only [Except.ok.injEq] at hres; subst hres; decide)

lemma idMsg_not_mem_browserScript (config : Config) (es : List String)
    (hres : browserScriptBlock config = .ok es) : idMsg ∉ es := by
  unfold browserScriptBlock at hres
  split at hres <;> try split at hres <;> try split at hres <;> try split at hres
  all_goals try split_ifs at hres
  all_goals
    first
      | exact Except.noConfusion hres
      | (simp only [Except.ok.injEq] at hres; subst hres; decide)

lemma idMsg_not_mem_browser (config : Config) (es : List String)
    (hres : _validate_browser_monitor config = .ok es) : idMsg ∉ es := by
  unfold _validate_browser_monitor at hres
  split at hres
  · simp at hres
  · split at hres
    · simp at hres
    · simp only [Except.ok.injEq] at hres
      subst hres
      simp only [List.mem_append, not_or]
      exact ⟨idMsg_not_mem_browserSource _ _ (by assumption),
        idMsg_not_mem_browserScript _ _ (by assumption)⟩

lemma idMsg_not_mem_typeSpecific (config : Config) (mt : String)
    (es : List String) (hres : typeSpecificCheck config mt = .ok es) :
    idMsg ∉ es := by
  unfold typeSpecificCheck at hres
  split_ifs at hres
  · exact idMsg_not_mem_http _ _ hres
  · exact idMsg_not_mem_tcp _ _ hres
  · exact idMsg_not_mem_icmp _ _ hres
  · exact idMsg_not_mem_browser _ _ hres
  · simp only [Except.ok.injEq] at hres
    subst hres
    exact List.not_mem_nil _

lemma idMsg_mem_basic_iff (config : Config) (s : String) (e1 : List String)
    (hid : lookupV config "id" = some (Value.str s))
    (hres : _validate_basic_fields config = .ok e1) :
    idMsg ∈ e1 ↔ (s.data ≠ [] ∧ idRegexMatch s = false) := by
  have hidC : idCheck (lookupV config "id") =
      Except.ok (if !s.data.isEmpty && !idRegexMatch s then [idMsg] else []) := by
    rw [hid]
    rfl
  unfold _validate_basic_fields at hres
  rw [hidC] at hres
  split at hres
  · exact Except.noConfusion hres
  · simp only [Except.ok.injEq] at hres
    subst hres
    constructor
    · intro hm
      simp only [List.mem_append] at hm
      rcases hm with ((((h | h) | h) | h) | h)
      · exfalso
        obtain ⟨f, hf, hmsg⟩ := List.mem_map.mp h
        have hf7 := (List.mem_filter.mp hf).1
        fin_cases hf7 <;> exact absurd hmsg (by decide)
      · exfalso
        revert h
        split
        · decide
        · simp only [List.mem_singleton]
          exact fun hmsg => tipo_ne_idMsg _ hmsg.symm
      · exact absurd h (idMsg_not_mem_nameCheck _ _ (by assumption))
      · revert h
        split_ifs with hcond
        · intro _
          constructor
          · intro hnil
            simp [hnil] at hcond
          · rcases Bool.eq_false_or_eq_true (idRegexMatch s) with hb | hb
            · simp [hb] at hcond
            · exact hb
        · intro h
          exact absurd h (List.not_mem_nil _)
      · exfalso
        revert h
        split <;> decide
    · rintro ⟨hne, hmatch⟩
      simp only [List.mem_append]
      refine Or.inl (Or.inr ?_)
      have hcond : (!s.data.isEmpty && !idRegexMatch s) = true := by
        simp [hmatch, List.isEmpty_iff, hne]
      rw [if_pos hcond]
      exact List.mem_singleton.mpr rfl

lemma idMsg_mem_validate_iff (config : Config) (mt s : String) (ok : Bool)
    (errs : List String)
    (hid : lookupV config "id" = some (Value.str s))
    (hres : validate_monitor_config config mt = .ok (ok, errs)) :
    idMsg ∈ errs ↔ (s.data ≠ [] ∧ idRegexMatch s = false) := by
  obtain ⟨e1, e2, e3, e5, h1, h2, h3, h5, herrs⟩ :=
    validate_ok_decompose config mt ok errs hres
  subst herrs
  rw [← idMsg_mem_basic_iff config s e1 hid h1]
  simp only [List.mem_append]
  constructor
  · rintro ((((h | h) | h) | h) | h)
    · exact h
    · exact absurd h (idMsg_not_mem_schedule _ _ h2)
    · exact absurd h (idMsg_not_mem_timeout _ _ h3)
    · exact absurd h (idMsg_not_mem_locations _)
    · exact absurd h (idMsg_not_mem_typeSpecific _ _ _ h5)
  · exact fun h => Or.inl (Or.inl (Or.inl (Or.inl h)))

/-- C9 counterexample: the empty-string id is present and does not match
`[A-Za-z0-9_-]+`, yet the validator returns a result with no id-format
violation, because the source guards the check with Python truthiness of the
id. -/
theorem claim_C9_counterexample :
    lookupV cfgEmptyId "id" = some (Value.str "") ∧
    idRegexMatch "" = false ∧
    ∃ ok errs, validate_monitor_config cfgEmptyId "http" = .ok (ok, errs) ∧
      idMsg ∉ errs :=
  ⟨rfl, by decide, _, _, rfl, by decide⟩

/-- C9 (amended): whenever the validator returns a result for a config whose
id field is present as a string, the result carries the id-format violation
exactly when the id is non-empty and fails the full regex match
`[A-Za-z0-9_-]+` (an empty id is skipped by the truthiness guard); the
spec\x27s concrete cases hold: id "bad id!" fails with the id-format violation
and timeout "200s" fails with the seconds-range violation. -/
theorem claim_C9_amended :
    (∀ (config : Config) (mt s : String) (ok : Bool) (errs : List String),
      lookupV config "id" = some (Value.str s) →
      validate_monitor_config config mt = .ok (ok, errs) →
      (idMsg ∈ errs ↔ (s.data ≠ [] ∧ idRegexMatch s = false))) ∧
    (∃ ok errs, validate_monitor_config cfgBadId "http" = .ok (ok, errs) ∧
      idMsg ∈ errs) ∧
    (∃ ok errs, validate_monitor_config cfgBadTimeout "http" = .ok (ok, errs) ∧
      timeoutRangeMsg ∈ errs) :=
  ⟨fun config mt s ok errs hid hres =>
      idMsg_mem_validate_iff config mt s ok errs hid hres,
   ⟨_, _, rfl, by decide⟩, ⟨_, _, rfl, by decide⟩⟩

/-- Witness for the amended C9 at a concrete config with an invalid id. -/
theorem claim_C9_witness :
    lookupV cfgBadId "id" = some (Value.str "bad id!") ∧
    ∃ ok errs, validate_monitor_config cfgBadId "http" = .ok (ok, errs) ∧
      (idMsg ∈ errs ↔ (("bad id!" : String).data ≠ [] ∧
        idRegexMatch "bad id!" = false)) :=
  ⟨rfl, _, _, rfl,
    claim_C9_amended.1 cfgBadId "http" "bad id!" _ _ rfl rfl⟩

lemma ai_try_body_no_attr (md : MonitorData) (env : AIEnv) :
    ai_try_body md env ≠ .error .attributeError := by
  unfold ai_try_body
  split
  · intro h
    exact PyExn.noConfusion (Except.error.inj h)
  · dsimp only
    split_ifs
    · intro h
      exact Except.noConfusion h
    · intro h
      exact Except.noConfusion h
    · repeat' split
      all_goals intro h
      all_goals
        first
          | exact Except.noConfusion h
          | exact PyExn.noConfusion (Except.error.inj h)

lemma ai_try_body_no_type (md : MonitorData) (env : AIEnv) :
    ai_try_body md env ≠ .error .typeError := by
  unfold ai_try_body
  split
  · intro h
    exact PyExn.noConfusion (Except.error.inj h)
  · dsimp only
    split_ifs
    · intro h
      exact Except.noConfusion h
    · intro h
      exact Except.noConfusion h
    · repeat' split
      all_goals intro h
      all_goals
        first
          | exact Except.noConfusion h
          | exact PyExn.noConfusion (Except.error.inj h)

lemma classify_with_ai_ok (md : MonitorData) (env : AIEnv) :
    ∃ c, _classify_with_ai md env = .ok c := by
  unfold _classify_with_ai
  cases hb : ai_try_body md env with
  | ok c => exact ⟨c, rfl⟩
  | error e =>
    have hcaught : caughtByAdapter e = true := by
      cases e <;>
        first
          | rfl
          | exact absurd hb (ai_try_body_no_attr md env)
          | exact absurd hb (ai_try_body_no_type md env)
    exact ⟨_rule_based_classification md, by simp [hcaught]⟩

lemma tenacity_single_attempt (md : MonitorData) (e : AIEnv) (rest : List AIEnv) :
    tenacityRun md (e :: rest) = (_classify_with_ai md e, 1) := by
  obtain ⟨c, hc⟩ := classify_with_ai_ok md e
  simp [tenacityRun, tenacityGo, hc]

/-- C3: every backend behaviour in the listed failure set (request exception,
non-200 status, no brace span, JSON parse failure, missing required key,
elastic_type outside the archetype set) makes `_classify_with_ai` return the
deterministic fallback classification; the exception is caught, never
re-raised, and the result is always a classification. -/
theorem claim_C3 (md : MonitorData) (env : AIEnv)
    (hfail :
      env.outcome = .exn ∨
      (∃ st text, env.outcome = .response st text ∧ st ≠ 200) ∨
      (∃ text, env.outcome = .response 200 text ∧
        (pyFind lbrace text.data = -1 ∨ pyRfind rbrace text.data + 1 = 0)) ∨
      (∃ text, env.outcome = .response 200 text ∧
        env.jsonParse (String.mk (pySlice text.data (pyFind lbrace text.data)
          (pyRfind rbrace text.data + 1))) = none) ∨
      (∃ text obj, env.outcome = .response 200 text ∧
        env.jsonParse (String.mk (pySlice text.data (pyFind lbrace text.data)
          (pyRfind rbrace text.data + 1))) = some obj ∧
        (lookupV obj "elastic_type" = none ∨ lookupV obj "confidence" = none ∨
         lookupV obj "reasoning" = none ∨
         lookupV obj "recommended_config" = none)) ∨
      (∃ text obj et, env.outcome = .response 200 text ∧
        env.jsonParse (String.mk (pySlice text.data (pyFind lbrace text.data)
          (pyRfind rbrace text.data + 1))) = some obj ∧
        lookupV obj "elastic_type" = some et ∧ elasticOfValue et = none)) :
    _classify_with_ai md env = .ok (_rule_based_classification md) := by
  rcases hfail with h | ⟨st, text, h, hst⟩ | ⟨text, h, hspan⟩ |
    ⟨text, h, hparse⟩ | ⟨text, obj, h, hparse, hkey⟩ |
    ⟨text, obj, et, h, hparse, het, hel⟩
  · simp [_classify_with_ai, ai_try_body, h, caughtByAdapter]
  · simp [_classify_with_ai, ai_try_body, h, hst]
  · simp [_classify_with_ai, ai_try_body, h, hspan]
  · by_cases hspan : (pyFind lbrace text.data = -1 ∨ pyRfind rbrace text.data + 1 = 0)
    · simp [_classify_with_ai, ai_try_body, h, hspan]
    · simp [_classify_with_ai, ai_try_body, h, hspan, hparse, caughtByAdapter]
  · by_cases hspan : (pyFind lbrace text.data = -1 ∨ pyRfind rbrace text.data + 1 = 0)
    · simp [_classify_with_ai, ai_try_body, h, hspan]
    · rcases hkey with hk | hk | hk | hk
      · simp [_classify_with_ai, ai_try_body, h, hspan, hparse, hk, caughtByAdapter]
      · cases h1 : lookupV obj "elastic_type" with
        | none => simp [_classify_with_ai, ai_try_body, h, hspan, hparse, h1, caughtByAdapter]
        | some et =>
          cases h2 : elasticOfValue et with
          | none => simp [_classify_with_ai, ai_try_body, h, hspan, hparse, h1, h2, caughtByAdapter]
          | some e =>
            simp [_classify_with_ai, ai_try_body, h, hspan, hparse, h1, h2, hk, caughtByAdapter]
      · cases h1 : lookupV obj "elastic_type" with
        | none => simp [_classify_with_ai, ai_try_body, h, hspan, hparse, h1, caughtByAdapter]
        | some et =>
          cases h2 : elasticOfValue et with
          | none => simp [_classify_with_ai, ai_try_body, h, hspan, hparse, h1, h2, caughtByAdapter]
          | some e =>
            cases h3 : lookupV obj "confidence" with
            | none => simp [_classify_with_ai, ai_try_body, h, hspan, hparse, h1, h2, h3, caughtByAdapter]
            | some cv =>
              simp [_classify_with_ai, ai_try_body, h, hspan, hparse, h1, h2, h3, hk, caughtByAdapter]
      · cases h1 : lookupV obj "elastic_type" with
        | none => simp [_classify_with_ai, ai_try_body, h, hspan, hparse, h1, caughtByAdapter]
        | some et =>
          cases h2 : elasticOfValue et with
          | none => simp [_classify_with_ai, ai_try_body, h, hspan, hparse, h1, h2, caughtByAdapter]
          | some e =>
            cases h3 : lookupV obj "confidence" with
            | none => simp [_classify_with_ai, ai_try_body, h, hspan, hparse, h1, h2, h3, caughtByAdapter]
            | some cv =>
              cases h4 : lookupV obj "reasoning" with
              | none => simp [_classify_with_ai, ai_try_body, h, hspan, hparse, h1, h2, h3, h4, caughtByAdapter]
              | some rv =>
                simp [_classify_with_ai, ai_try_body, h, hspan, hparse, h1, h2, h3, h4, hk, caughtByAdapter]
  · by_cases hspan : (pyFind lbrace text.data = -1 ∨ pyRfind rbrace text.data + 1 = 0)
    · simp [_classify_with_ai, ai_try_body, h, hspan]
    · simp [_classify_with_ai, ai_try_body, h, hspan, hparse, het, hel, caughtByAdapter]

/-- Witness for C3 at the raising backend behaviour. -/
theorem claim_C3_witness :
    envExn.outcome = RequestOutcome.exn ∧
    _classify_with_ai mdEmpty envExn = .ok (_rule_based_classification mdEmpty) :=
  ⟨rfl, claim_C3 mdEmpty envExn (Or.inl rfl)⟩

/-- C4 counterexample: with a transient failure on the first attempt and a
healthy backend afterwards, the operation returns the fallback classification
after exactly one attempt — the retry decorator never re-runs the call
because the inner except clause swallows the request exception; a later
attempt would have produced a different (AI) classification. -/
theorem claim_C4_counterexample :
    tenacityRun mdEmpty [envExn, envGood, envGood] =
      (.ok (_rule_based_classification mdEmpty), 1) ∧
    _classify_with_ai mdEmpty envGood =
      .ok { elastic_type := .tcp, confidence := 1, reasoning := "AI: ok",
            recommended_config := [] } ∧
    (_rule_based_classification mdEmpty).elastic_type ≠ ElasticMonitorType.tcp := by
  refine ⟨rfl, rfl, by decide⟩

/-- C4 (amended): the decorated backend call never raises to its caller and
always completes on the first attempt, because the except clause inside the
call catches every failure (including transient request exceptions) and
returns the fallback classification instead of re-raising; in particular a
single transient failure immediately produces the fallback classification
and no retry occurs. -/
theorem claim_C4_amended :
    (∀ (md : MonitorData) (e : AIEnv) (rest : List AIEnv),
      (tenacityRun md (e :: rest)).2 = 1 ∧
      ∃ c, (tenacityRun md (e :: rest)).1 = .ok c) ∧
    (∀ (md : MonitorData) (e : AIEnv) (rest : List AIEnv), e.outcome = .exn →
      tenacityRun md (e :: rest) = (.ok (_rule_based_classification md), 1)) := by
  constructor
  · intro md e rest
    rw [tenacity_single_attempt]
    exact ⟨rfl, classify_with_ai_ok md e⟩
  · intro md e rest hexn
    rw [tenacity_single_attempt]
    have : _classify_with_ai md e = .ok (_rule_based_classification md) := by
      simp [_classify_with_ai, ai_try_body, hexn, caughtByAdapter]
    rw [this]

/-- Witness for the amended C4 at the raising backend behaviour. -/
theorem claim_C4_witness :
    envExn.outcome = RequestOutcome.exn ∧
    tenacityRun mdEmpty [envExn] = (.ok (_rule_based_classification mdEmpty), 1) :=
  ⟨rfl, claim_C4_amended.2 mdEmpty envExn [] rfl⟩

/-- C6: the rule classifier classifies the minimal valid HTTP record
(url http://example.com, interval 120) as HTTP, but the config generator
raises `AttributeError` on `monitor.match_pattern` before producing any
config, so the round-trip never reaches the validator.  The third conjunct
evaluates the dictionary assembled up to the faulty line against the strict
validator: it would have passed with zero violations. -/
theorem claim_C6 :
    ∃ c, _classify_with_rules (toMonitorData minimalHttpMonitor) = some c ∧
      _generate_monitor_config minimalHttpMonitor c =
        Except.error PyExn.attributeError ∧
      validate_monitor_config (http_config_built minimalHttpMonitor c) "http" =
        Except.ok (true, []) := by
  refine ⟨_, rfl, rfl, rfl⟩

lemma migrate_step_counts (behave : MonitorInfo → StepOutcome)
    (acc : MigrationResults) (m : MonitorInfo) :
    (migrate_step behave acc m).successful_migrations +
        (migrate_step behave acc m).failed_migrations =
      acc.successful_migrations + acc.failed_migrations + 1 ∧
    (migrate_step behave acc m).total_monitors = acc.total_monitors := by
  constructor
  · cases hb : behave m with
    | fetchFailed => simp [migrate_step, hb]; omega
    | processed success => cases success <;> simp [migrate_step, hb] <;> omega
    | exn => simp [migrate_step, hb]; omega
  · cases hb : behave m with
    | fetchFailed => simp [migrate_step, hb]
    | processed success => cases success <;> simp [migrate_step, hb]
    | exn => simp [migrate_step, hb]

lemma migrate_fold_counts (behave : MonitorInfo → StepOutcome)
    (l : List MonitorInfo) (acc : MigrationResults) :
    (l.foldl (migrate_step behave) acc).successful_migrations +
        (l.foldl (migrate_step behave) acc).failed_migrations =
      acc.successful_migrations + acc.failed_migrations + l.length ∧
    (l.foldl (migrate_step behave) acc).total_monitors = acc.total_monitors := by
  induction l generalizing acc with
  | nil => exact ⟨by simp, rfl⟩
  | cons m rest ih =>
    simp only [List.foldl_cons, List.length_cons]
    obtain ⟨hsum, htot⟩ := ih (migrate_step behave acc m)
    obtain ⟨hstep, hsteptot⟩ := migrate_step_counts behave acc m
    refine ⟨?_, by rw [htot, hsteptot]⟩
    rw [hsum, hstep]
    omega

/-- C10: for every run of the driver over a list of monitors and every
per-monitor behaviour (including fetch failures and escaping exceptions),
the success count plus the failure count equals `total_monitors`, which
equals the length of the processed list — each monitor is counted exactly
once and one monitor's failure never stops the loop; the same holds for the
entry point over the predefined, optionally filtered list. -/
theorem claim_C10 :
    (∀ (monitors_list : List MonitorInfo) (behave : MonitorInfo → StepOutcome),
      (run_migration monitors_list behave).successful_migrations +
          (run_migration monitors_list behave).failed_migrations =
        (run_migration monitors_list behave).total_monitors ∧
      (run_migration monitors_list behave).total_monitors =
        monitors_list.length) ∧
    (∀ (pat : Option String) (behave : MonitorInfo → StepOutcome),
      (migrate_monitors pat behave).successful_migrations +
          (migrate_monitors pat behave).failed_migrations =
        (migrate_monitors pat behave).total_monitors) := by
  have hrun : ∀ (monitors_list : List MonitorInfo)
      (behave : MonitorInfo → StepOutcome),
      (run_migration monitors_list behave).successful_migrations +
          (run_migration monitors_list behave).failed_migrations =
        (run_migration monitors_list behave).total_monitors ∧
      (run_migration monitors_list behave).total_monitors =
        monitors_list.length := by
    intro monitors_list behave
    unfold run_migration
    by_cases h : monitors_list.isEmpty
    · rw [if_pos h]
      have : monitors_list = [] := List.isEmpty_iff.mp h
      simp [this]
    · rw [if_neg h]
      obtain ⟨hsum, htot⟩ := migrate_fold_counts behave monitors_list
        { total_monitors := monitors_list.length, successful_migrations := 0,
          failed_migrations := 0, monitors := [] }
      rw [hsum, htot]
      exact ⟨by simp, rfl⟩
  exact ⟨hrun, fun pat behave => (hrun _ behave).1⟩

end Migration
